import Mathlib

/-!
Shallow embedding of `src/stock_alert.py` (a Telegram stock-alert bot built
around one evaluator, `check_trades`) and proofs about it.

Modelling conventions:
* Python prices (ints/floats) are modelled as rationals `ℚ`.
* `datetime.now(IST)` is modelled by the structure `DT`, carrying the Python
  `weekday()` value (Monday = 0 … Sunday = 6), the local IST time of day in
  seconds, and an absolute epoch-second value used for timestamp subtraction.
* Stored `last_alert_time` values are modelled by `Timestamp`: either naive
  (a wall-clock reading lacking timezone information, interpreted as IST by
  `IST.localize` in the source) or aware (an absolute instant).
* Effects (Telegram messages, MongoDB `update_one` calls) are modelled as
  data returned by the evaluator: lists of `Notification` and `TradeUpdate`.
  Delivery itself is modelled as always succeeding inside `check_trades`;
  `send_telegram_message`'s own retry/raise behaviour is modelled separately.
* Python exceptions are modelled explicitly where a claim depends on them:
  the `ZeroDivisionError` raised by `abs(entry_price - day_low) / entry_price`
  when `entry_price = 0` (and `alert_sent` is false, since `and`
  short-circuits) is the first case of `tradeBranches`, matching the
  per-record `try/except` handler that logs and sends an error notification.
* `exit(0)` at the market-hours gate ends the run with no effects; the model
  returns the empty `RunResult` with `storeQueried = false`.
-/

/-- Python `datetime.now(IST)`: weekday (Monday = 0 … Sunday = 6), IST
time-of-day in seconds, and absolute epoch seconds for subtraction. -/
structure DT where
  weekday : Nat
  secOfDay : Nat
  epochSec : Int
deriving DecidableEq

/-- `now.hour` for the IST time of day. -/
def DT.hour (d : DT) : Nat := d.secOfDay / 3600

/-- `now.minute` for the IST time of day. -/
def DT.minute (d : DT) : Nat := d.secOfDay % 3600 / 60

/-- IST is UTC+05:30: 19800 seconds. -/
def istOffsetSec : Int := 19800

/-- A stored timestamp: naive (no tzinfo, wall-clock seconds as read) or
aware (absolute epoch seconds). -/
inductive Timestamp where
  | naive (wall : Int)
  | aware (epoch : Int)
deriving DecidableEq

/-- `IST.localize`: a naive wall-clock reading is declared to be IST local
time, so its absolute instant is the reading minus the IST offset. An aware
timestamp is unchanged. -/
def localize : Timestamp → Timestamp
  | .naive w => .aware (w - istOffsetSec)
  | .aware e => .aware e

/-- The absolute instant of a timestamp, in epoch seconds. -/
def Timestamp.epochVal : Timestamp → Int
  | .naive w => w
  | .aware e => e

/-- `entry_price` as stored: a numeric value or something non-numeric
(failing `isinstance(entry_price, (int, float))`). -/
inductive EntryVal where
  | num (q : ℚ)
  | nonnum
deriving DecidableEq

/-- `isinstance(entry_price, (int, float))` on the optional stored field. -/
def isNumericVal : Option EntryVal → Bool
  | some (EntryVal.num _) => true
  | _ => false

/-- A trade record as read from the `trades` collection. `symbol` and `_id`
are optional (`trade.get(...)`); flags default to `False` via
`trade.get(..., False)`. -/
structure Trade where
  symbol : Option String
  id : Option String
  entry_price : Option EntryVal
  status : String
  alert_sent : Bool
  entry_alert_sent : Bool
  last_alert_time : Option Timestamp
deriving DecidableEq

/-- `patch_symbol`: appends a default exchange suffix when the raw string
contains no separator character. -/
def patch_symbol (symbol : String) : String :=
  if '.' ∈ symbol.data then symbol else symbol ++ ".NS"

/-- One Telegram message, by kind and payload, as produced by
`check_trades`. -/
inductive Notification where
  | approaching (symbol : String) (entry low : ℚ)
  | entryHit (symbol : String) (entry low : ℚ)
  | fetchError (msg : String)
  | tradeError (symbol : String)
  | mainError (msg : String)
deriving DecidableEq

/-- One `trade_collection.update_one({"_id": id}, {"$set": ...})` call. -/
inductive TradeUpdate where
  | setAlertSent (id : String) (t : Int)
  | setEntryAlertSent (id : String) (t : Int)
  | resetAlert (id : String) (t : Int)
deriving DecidableEq

/-- The effect of one `$set` patch on the record it targets. -/
def applyUpdate (t : Trade) : TradeUpdate → Trade
  | .setAlertSent _ ts =>
      { t with alert_sent := true, last_alert_time := some (.aware ts) }
  | .setEntryAlertSent _ ts =>
      { t with entry_alert_sent := true, last_alert_time := some (.aware ts) }
  | .resetAlert _ ts =>
      { t with alert_sent := false, last_alert_time := some (.aware ts) }

/-- The `last_alert_time` value a `$set` patch writes. -/
def uTime : TradeUpdate → Int
  | .setAlertSent _ ts => ts
  | .setEntryAlertSent _ ts => ts
  | .resetAlert _ ts => ts

/-- What one loop iteration over a record produced: the messages sent and
the (at most one) store update performed. -/
structure StepResult where
  notes : List Notification
  update : Option TradeUpdate
deriving DecidableEq

/-- `now.hour > 15 or (now.hour == 15 and now.minute >= 30)` — the reset
branch's time condition. -/
def afterClose (d : DT) : Bool :=
  d.hour > 15 || (d.hour == 15 && d.minute ≥ 30)

/-- `now.weekday() >= 5 or now.time() < time(9, 15) or now.time() >
time(15, 30)` — the market-hours gate. -/
def marketGateBlocks (d : DT) : Bool :=
  d.weekday ≥ 5 || d.secOfDay < 9 * 3600 + 15 * 60 || d.secOfDay > 15 * 3600 + 30 * 60

/-- `last_alert_time and now - last_alert_time < timedelta(minutes=30)`,
after the naive case has been localized to IST. -/
def cooldownBlocks (now : DT) (t : Trade) : Bool :=
  match t.last_alert_time with
  | none => false
  | some lt => decide (now.epochSec - (localize lt).epochVal < 30 * 60)

/-- Python's built-in `abs` on a rational value. -/
def pyAbs (q : ℚ) : ℚ := if q < 0 then -q else q

/-- The `try:` block of the per-record loop — the if/elif priority chain.
The first case models the `ZeroDivisionError` raised while evaluating the
approaching guard when `entry_price` is 0 (reached only when `alert_sent`
is false, since Python's `and` short-circuits); the `except` handler then
sends an error notification naming the symbol and performs no update. -/
def tradeBranches (now : DT) (alert_sent entry_alert_sent : Bool)
    (rawSymbol tradeId : String) (entry_price day_low : ℚ) : StepResult :=
  if alert_sent = false ∧ entry_price = 0 then
    ⟨[Notification.tradeError rawSymbol], none⟩
  else if alert_sent = false ∧ 0 < pyAbs (entry_price - day_low) / entry_price ∧
      pyAbs (entry_price - day_low) / entry_price ≤ 2 / 100 then
    ⟨[Notification.approaching rawSymbol entry_price day_low],
      some (TradeUpdate.setAlertSent tradeId now.epochSec)⟩
  else if entry_alert_sent = false ∧ day_low ≤ entry_price then
    ⟨[Notification.entryHit rawSymbol entry_price day_low],
      some (TradeUpdate.setEntryAlertSent tradeId now.epochSec)⟩
  else if alert_sent = true ∧ entry_alert_sent = false ∧ afterClose now = true then
    ⟨[], some (TradeUpdate.resetAlert tradeId now.epochSec)⟩
  else
    ⟨[], none⟩

/-- One iteration of the `for i, trade in enumerate(trades, 1)` loop:
validity check (`all([raw_symbol, trade_id, isinstance(entry_price, ...)])`,
where Python truthiness rejects `None` and the empty string), price lookup,
cooldown, then the branch chain. -/
def processTrade (now : DT) (prices : String → Option ℚ) (t : Trade) : StepResult :=
  match t.symbol, t.id, t.entry_price with
  | some rawSymbol, some tradeId, some (EntryVal.num entry_price) =>
    if rawSymbol = "" ∨ tradeId = "" then ⟨[], none⟩
    else
      match prices (patch_symbol rawSymbol) with
      | none => ⟨[], none⟩
      | some day_low =>
        if cooldownBlocks now t then ⟨[], none⟩
        else tradeBranches now t.alert_sent t.entry_alert_sent rawSymbol tradeId
          entry_price day_low
  | _, _, _ => ⟨[], none⟩

/-- Outcome of `yf.download` for the whole batch: a per-symbol partial map,
or a raised exception with its message. -/
inductive FetchResult where
  | ok (prices : String → Option ℚ)
  | err (msg : String)

/-- `status == "OPEN"`, the store query filter. -/
def isOpen (t : Trade) : Bool := t.status == "OPEN"

/-- Messages sent by the per-record loop, in iteration order. -/
def runNotes (now : DT) (prices : String → Option ℚ) : List Trade → List Notification
  | [] => []
  | t :: ts => (processTrade now prices t).notes ++ runNotes now prices ts

/-- Store updates performed by the per-record loop, in iteration order. -/
def runUpdates (now : DT) (prices : String → Option ℚ) : List Trade → List TradeUpdate
  | [] => []
  | t :: ts =>
    match (processTrade now prices t).update with
    | some u => u :: runUpdates now prices ts
    | none => runUpdates now prices ts

/-- The observable outcome of one `check_trades()` invocation. `raised`
carries the message of an exception escaping `check_trades` (to be caught
by `main`); the other fields record what happened before it was raised. -/
structure RunResult where
  notes : List Notification
  updates : List TradeUpdate
  storeQueried : Bool
  fetchAttempted : Bool
  processed : Nat
  raised : Option String
deriving DecidableEq

/-- `check_trades()`: market-hours gate (`exit(0)` modelled as the empty
run), store query, empty-result early return, the tickers comprehension
`list(set(patch_symbol(trade["symbol"]) for trade in trades))`, batched
fetch (a raised batch fetch leaves `price_data` empty and sends an error
notification), then the per-record loop. The comprehension indexes
`trade["symbol"]` strictly, outside any `try`: a record whose symbol is
missing raises `KeyError` there (a stored `None` symbol instead raises
`TypeError` inside `patch_symbol`; both abort and are modelled by
`symbol = none` and the one message below), so the run ends before any
fetch or record processing, with the exception left for `main` to catch.
Updates are modelled as collected effects; each targets only its own
record's id, so applying them during or after the iteration is
indistinguishable for a single pass. -/
def check_trades (now : DT) (store : List Trade) (fetch : FetchResult) : RunResult :=
  if marketGateBlocks now then ⟨[], [], false, false, 0, none⟩
  else
    let trades := store.filter isOpen
    if trades.isEmpty then ⟨[], [], true, false, 0, none⟩
    else if trades.any (fun t => t.symbol.isNone) then
      ⟨[], [], true, false, 0, some "KeyError: symbol"⟩
    else
      let prices := match fetch with
        | .ok p => p
        | .err _ => fun _ => none
      let fetchNotes := match fetch with
        | .ok _ => ([] : List Notification)
        | .err m => [Notification.fetchError m]
      ⟨fetchNotes ++ runNotes now prices trades, runUpdates now prices trades,
        true, true, trades.length, none⟩

/-- The `try/except` around `check_trades()` in `main`: an exception
escaping the run is logged and reported with a best-effort error
notification, after whatever messages the run itself sent. -/
def mainNotes (r : RunResult) : List Notification :=
  r.notes ++ match r.raised with
  | some m => [Notification.mainError m]
  | none => []

/-- The `for attempt in range(3)` loop of `send_telegram_message`.
`resp i` is the HTTP status of the (i+1)-th POST. 429 waits and retries;
any other non-200 raises at once; 200 returns; an exhausted loop raises
the max-retries error. -/
def sendAttempts (resp : Nat → Nat) : Nat → Nat → Except String Unit
  | 0, _ => .error "Max retries reached for Telegram API"
  | fuel + 1, i =>
    if resp i = 429 then sendAttempts resp fuel (i + 1)
    else if resp i ≠ 200 then .error "Telegram API Error"
    else .ok ()

/-- `send_telegram_message`, abstracted over the transport's responses. -/
def send_telegram_message (resp : Nat → Nat) : Except String Unit :=
  sendAttempts resp 3 0

/-- C9: a raw symbol with no separator gets the default suffix appended
exactly once; one that already has a separator is unchanged; hence
normalization is idempotent on all inputs. -/
theorem c9_patch_symbol_spec (s : String) :
    ('.' ∉ s.data → patch_symbol s = s ++ ".NS") ∧
    ('.' ∈ s.data → patch_symbol s = s) ∧
    patch_symbol (patch_symbol s) = patch_symbol s := by
  refine ⟨fun h => by simp [patch_symbol, h], fun h => by simp [patch_symbol, h], ?_⟩
  by_cases h : '.' ∈ s.data
  · simp [patch_symbol, h]
  · have h2 : '.' ∈ (s ++ ".NS").data := by
      rw [String.data_append]
      exact List.mem_append_right _ (by decide)
    simp [patch_symbol, h, h2]

/-- Witness for C9 at concrete symbols. -/
theorem c9_patch_symbol_spec_witness :
    patch_symbol "TCS" = "TCS" ++ ".NS" ∧ patch_symbol "TCS.NS" = "TCS.NS" := by
  refine ⟨(c9_patch_symbol_spec "TCS").1 (by decide), (c9_patch_symbol_spec "TCS.NS").2.1 (by decide)⟩

/-- C4: two rate-limited attempts followed by a success return normally;
three rate-limited attempts raise the max-retries failure; a first response
that is neither success nor rate-limited raises at once, whatever the
transport would have answered on later attempts (so no retry happens). -/
theorem c4_send_retry_spec (resp : Nat → Nat) :
    (resp 0 = 429 → resp 1 = 429 → resp 2 = 200 →
      send_telegram_message resp = .ok ()) ∧
    (resp 0 = 429 → resp 1 = 429 → resp 2 = 429 →
      send_telegram_message resp = .error "Max retries reached for Telegram API") ∧
    (resp 0 ≠ 429 → resp 0 ≠ 200 →
      send_telegram_message resp = .error "Telegram API Error") := by
  refine ⟨fun h0 h1 h2 => ?_, fun h0 h1 h2 => ?_, fun h0 h1 => ?_⟩
  · simp [send_telegram_message, sendAttempts, h0, h1, h2]
  · simp [send_telegram_message, sendAttempts, h0, h1, h2]
  · simp [send_telegram_message, sendAttempts, h0, h1]

/-- Witness for C4 at three concrete response sequences. -/
theorem c4_send_retry_spec_witness :
    send_telegram_message (fun i => if i ≤ 1 then 429 else 200) = .ok () ∧
    send_telegram_message (fun _ => 429) =
      .error "Max retries reached for Telegram API" ∧
    send_telegram_message (fun _ => 500) = .error "Telegram API Error" :=
  ⟨(c4_send_retry_spec (fun i => if i ≤ 1 then 429 else 200)).1 rfl rfl rfl,
   (c4_send_retry_spec (fun _ => 429)).2.1 rfl rfl rfl,
   (c4_send_retry_spec (fun _ => 500)).2.2 (by decide) (by decide)⟩

/-- Any pass whose cooldown test is true skips the record: no message, no
update. (All earlier skip paths also yield the empty step.) -/
theorem processTrade_of_cooldown (now : DT) (prices : String → Option ℚ)
    (t : Trade) (h : cooldownBlocks now t = true) :
    processTrade now prices t = ⟨[], none⟩ := by
  obtain ⟨sym, id0, ep, st, a_s, es, lat⟩ := t
  rcases sym with _ | s
  · rfl
  · rcases id0 with _ | i
    · rcases ep with _ | q | - <;> rfl
    · rcases ep with _ | q | -
      · rfl
      · by_cases h0 : s = "" ∨ i = ""
        · simp [processTrade, h0]
        · cases hp : prices (patch_symbol s) with
          | none => simp [processTrade, h0, hp]
          | some dl => simp [processTrade, h0, hp, h]
      · rfl

/-- With an empty price mapping every record is skipped. -/
theorem processTrade_no_price (now : DT) (t : Trade) :
    processTrade now (fun _ => none) t = ⟨[], none⟩ := by
  obtain ⟨sym, id0, ep, st, a_s, es, lat⟩ := t
  rcases sym with _ | s
  · rfl
  · rcases id0 with _ | i
    · rcases ep with _ | q | - <;> rfl
    · rcases ep with _ | q | -
      · rfl
      · by_cases h0 : s = "" ∨ i = ""
        · simp [processTrade, h0]
        · simp [processTrade, h0]
      · rfl

/-- With an empty price mapping the whole loop sends nothing. -/
theorem runNotes_no_price (now : DT) (l : List Trade) :
    runNotes now (fun _ => none) l = [] := by
  induction l with
  | nil => rfl
  | cons t ts ih => simp [runNotes, processTrade_no_price, ih]

/-- With an empty price mapping the whole loop updates nothing. -/
theorem runUpdates_no_price (now : DT) (l : List Trade) :
    runUpdates now (fun _ => none) l = [] := by
  induction l with
  | nil => rfl
  | cons t ts ih => simp [runUpdates, processTrade_no_price, ih]

/-- A record that passes validity, price lookup and cooldown reaches the
branch chain. -/
theorem processTrade_passes (now : DT) (prices : String → Option ℚ) (t : Trade)
    (s i : String) (ep dl : ℚ)
    (hs : t.symbol = some s) (hi : t.id = some i)
    (he : t.entry_price = some (EntryVal.num ep))
    (hs0 : s ≠ "") (hi0 : i ≠ "")
    (hp : prices (patch_symbol s) = some dl)
    (hc : cooldownBlocks now t = false) :
    processTrade now prices t =
      tradeBranches now t.alert_sent t.entry_alert_sent s i ep dl := by
  obtain ⟨sym, id0, epf, st, a_s, es, lat⟩ := t
  simp only at hs hi he
  subst hs hi he
  have h0 : ¬(s = "" ∨ i = "") := by
    rintro (h | h) <;> [exact hs0 h; exact hi0 h]
  simp [processTrade, h0, hp, hc]

/-- C2: a record whose `last_alert_time` (localized to IST when naive) lies
less than 30 minutes before `now` is skipped with no notification of any
kind and no store update, whatever the threshold guards would say: the
cooldown is tested before any of the three branches. -/
theorem c2_cooldown_precedence (now : DT) (prices : String → Option ℚ)
    (t : Trade) (lt : Timestamp)
    (hl : t.last_alert_time = some lt)
    (hc : now.epochSec - (localize lt).epochVal < 30 * 60) :
    processTrade now prices t = ⟨[], none⟩ := by
  apply processTrade_of_cooldown
  simp only [cooldownBlocks, hl, decide_eq_true_eq]
  omega

/-- Witness for C2: a naive timestamp 60 seconds (after localization to
IST) before a run at epoch second 1000 suppresses an entry-hit situation. -/
theorem c2_cooldown_precedence_witness :
    processTrade ⟨2, 36000, 1000⟩ (fun _ => some 99)
      ⟨some "TCS", some "t1", some (EntryVal.num 100), "OPEN", false, false,
        some (Timestamp.naive 20740)⟩ = ⟨[], none⟩ :=
  c2_cooldown_precedence ⟨2, 36000, 1000⟩ (fun _ => some 99)
    ⟨some "TCS", some "t1", some (EntryVal.num 100), "OPEN", false, false,
      some (Timestamp.naive 20740)⟩ (Timestamp.naive 20740) rfl (by decide)

/-- C6: on a Saturday or Sunday (Python weekday 5 or 6), or strictly before
09:15 IST, or strictly after 15:30 IST, `check_trades` exits at the gate:
the store is never queried, no fetch is attempted, and no notification or
update is produced. -/
theorem c6_market_gate (now : DT) (store : List Trade) (fetch : FetchResult)
    (h : now.weekday ≥ 5 ∨ now.secOfDay < 9 * 3600 + 15 * 60 ∨
      now.secOfDay > 15 * 3600 + 30 * 60) :
    check_trades now store fetch = ⟨[], [], false, false, 0, none⟩ := by
  have hg : marketGateBlocks now = true := by
    simp only [marketGateBlocks, Bool.or_eq_true, decide_eq_true_eq]
    omega
  simp [check_trades, hg]

/-- Witness for C6: Saturday mid-session. -/
theorem c6_market_gate_witness :
    check_trades ⟨5, 36000, 0⟩ [] (FetchResult.ok fun _ => none) =
      ⟨[], [], false, false, 0, none⟩ :=
  c6_market_gate ⟨5, 36000, 0⟩ [] (FetchResult.ok fun _ => none)
    (Or.inl (by decide))

/-- C8 counterexample: one OPEN record whose symbol is missing. The
tickers comprehension raises before the per-record loop: the run aborts
with nothing fetched and no record processed, and `main` then sends an
error notification — the record is not silently skipped with no
notification sent, as the claim states. -/
theorem c8_missing_symbol_aborts :
    check_trades ⟨2, 36000, 0⟩
      [⟨none, some "t1", some (EntryVal.num 5), "OPEN", false, false, none⟩]
      (FetchResult.ok fun _ => none) =
      ⟨[], [], true, false, 0, some "KeyError: symbol"⟩ ∧
    mainNotes ⟨[], [], true, false, 0, some "KeyError: symbol"⟩ =
      [Notification.mainError "KeyError: symbol"] := by
  constructor <;> rfl

/-- C8 (amended): a record whose symbol is present but empty, or whose id
is missing, or whose `entry_price` is absent or non-numeric, or whose
canonical symbol has no entry in the price mapping, is skipped entirely —
no notification, no update — and processing continues; but a record whose
symbol is missing never reaches the loop: the tickers comprehension raises
first, so the whole run aborts with no fetch, no record processed and no
update, and the top-level handler reports the failure with an error
notification. -/
theorem c8_skip_or_abort (now : DT) :
    (∀ (prices : String → Option ℚ) (t : Trade),
      t.symbol = some "" ∨ t.id = none ∨ t.entry_price = none ∨
        t.entry_price = some EntryVal.nonnum ∨
        (∀ s, t.symbol = some s → prices (patch_symbol s) = none) →
      processTrade now prices t = ⟨[], none⟩) ∧
    (∀ (store : List Trade) (fetch : FetchResult),
      marketGateBlocks now = false →
      (store.filter isOpen).isEmpty = false →
      (store.filter isOpen).any (fun t => t.symbol.isNone) = true →
      check_trades now store fetch =
        ⟨[], [], true, false, 0, some "KeyError: symbol"⟩ ∧
      mainNotes (check_trades now store fetch) =
        [Notification.mainError "KeyError: symbol"]) := by
  constructor
  · intro prices t h
    obtain ⟨sym, id0, ep, st, a_s, es, lat⟩ := t
    simp only at h
    rcases sym with _ | s
    · rfl
    · rcases id0 with _ | i
      · rcases ep with _ | q | - <;> rfl
      · rcases ep with _ | q | -
        · rfl
        · rcases h with h | h | h | h | h
          · simp only [Option.some.injEq] at h
            simp [processTrade, h]
          · exact absurd h (by simp)
          · exact absurd h (by simp)
          · exact absurd h (by simp)
          · have hp : prices (patch_symbol s) = none := h s rfl
            by_cases h0 : s = "" ∨ i = ""
            · simp [processTrade, h0]
            · simp [processTrade, h0, hp]
        · rfl
  · intro store fetch hg hne hany
    have hct : check_trades now store fetch =
        ⟨[], [], true, false, 0, some "KeyError: symbol"⟩ := by
      simp [check_trades, hg, hne, hany]
    exact ⟨hct, by rw [hct]; rfl⟩

/-- Witness for C8 (amended): an empty-symbol record is skipped in the
loop, while a store holding a missing-symbol record makes the run abort
with the top-level error notification. -/
theorem c8_skip_or_abort_witness :
    processTrade ⟨2, 36000, 0⟩ (fun _ => none)
      ⟨some "", some "t1", some (EntryVal.num 5), "OPEN", false, false, none⟩ =
      ⟨[], none⟩ ∧
    mainNotes (check_trades ⟨2, 36000, 0⟩
        [⟨none, some "t2", some (EntryVal.num 7), "OPEN", false, false, none⟩]
        (FetchResult.ok fun _ => none)) =
      [Notification.mainError "KeyError: symbol"] :=
  ⟨(c8_skip_or_abort ⟨2, 36000, 0⟩).1 (fun _ => none)
    ⟨some "", some "t1", some (EntryVal.num 5), "OPEN", false, false, none⟩
    (Or.inl rfl),
   ((c8_skip_or_abort ⟨2, 36000, 0⟩).2
    [⟨none, some "t2", some (EntryVal.num 7), "OPEN", false, false, none⟩]
    (FetchResult.ok fun _ => none) (by decide) (by decide) (by decide)).2⟩

/-- C7: when the batched fetch raises, the failure is reported as a
notification, the price mapping stays empty, and the run still iterates all
loaded records — each finds no price and is skipped, so nothing else is
sent and nothing is updated; and indeed every record processed against an
empty price mapping yields the empty step. (A run that reaches the fetch
has already passed the tickers comprehension, so every loaded record has
its symbol present — the `hsym` hypothesis.) -/
theorem c7_batch_fetch_failure (now : DT) (store : List Trade) (m : String)
    (hg : marketGateBlocks now = false)
    (hne : (store.filter isOpen).isEmpty = false)
    (hsym : (store.filter isOpen).any (fun t => t.symbol.isNone) = false) :
    check_trades now store (FetchResult.err m) =
      ⟨[Notification.fetchError m], [], true, true,
        (store.filter isOpen).length, none⟩ ∧
    0 < (store.filter isOpen).length ∧
    ∀ t : Trade, processTrade now (fun _ => none) t = ⟨[], none⟩ := by
  refine ⟨?_, ?_, fun t => processTrade_no_price now t⟩
  · simp [check_trades, hg, hne, hsym, runNotes_no_price, runUpdates_no_price]
  · have : store.filter isOpen ≠ [] := by
      simpa [List.isEmpty_iff] using hne
    exact List.length_pos.mpr this

/-- Witness for C7: one open record, batch fetch raised. -/
theorem c7_batch_fetch_failure_witness :
    check_trades ⟨2, 36000, 0⟩
      [⟨some "TCS", some "t1", some (EntryVal.num 100), "OPEN", false, false, none⟩]
      (FetchResult.err "boom") =
      ⟨[Notification.fetchError "boom"], [], true, true, 1, none⟩ :=
  (c7_batch_fetch_failure ⟨2, 36000, 0⟩
    [⟨some "TCS", some "t1", some (EntryVal.num 100), "OPEN", false, false, none⟩]
    "boom" (by decide) (by decide) (by decide)).1

/-- The embedding of Python `abs` agrees with the mathematical absolute
value. -/
theorem pyAbs_eq_abs (q : ℚ) : pyAbs q = |q| := by
  unfold pyAbs
  split
  · exact (abs_of_neg (by assumption)).symm
  · next h => exact (abs_of_nonneg (not_lt.mp h)).symm

/-- C3: for a record that reaches the branch chain (with a nonzero entry
price, so no exception), the chain sends at most one message; the
approaching branch wins whenever its guard holds — in particular when the
entry-hit guard holds at the same time — setting `alert_sent` but not
`entry_alert_sent`; the entry-hit branch fires only when the approaching
guard fails; the reset branch only when both fail; and nothing happens when
no guard holds. -/
theorem c3_priority_chain (now : DT) (a_s es : Bool) (s i : String)
    (ep dl : ℚ) (hep : ep ≠ 0) :
    (tradeBranches now a_s es s i ep dl).notes.length ≤ 1 ∧
    (a_s = false → 0 < pyAbs (ep - dl) / ep → pyAbs (ep - dl) / ep ≤ 2 / 100 →
      tradeBranches now a_s es s i ep dl =
        ⟨[Notification.approaching s ep dl],
          some (TradeUpdate.setAlertSent i now.epochSec)⟩) ∧
    (¬(a_s = false ∧ 0 < pyAbs (ep - dl) / ep ∧ pyAbs (ep - dl) / ep ≤ 2 / 100) →
      es = false → dl ≤ ep →
      tradeBranches now a_s es s i ep dl =
        ⟨[Notification.entryHit s ep dl],
          some (TradeUpdate.setEntryAlertSent i now.epochSec)⟩) ∧
    (¬(a_s = false ∧ 0 < pyAbs (ep - dl) / ep ∧ pyAbs (ep - dl) / ep ≤ 2 / 100) →
      ¬(es = false ∧ dl ≤ ep) → a_s = true → es = false → afterClose now = true →
      tradeBranches now a_s es s i ep dl =
        ⟨[], some (TradeUpdate.resetAlert i now.epochSec)⟩) ∧
    (¬(a_s = false ∧ 0 < pyAbs (ep - dl) / ep ∧ pyAbs (ep - dl) / ep ≤ 2 / 100) →
      ¬(es = false ∧ dl ≤ ep) → ¬(a_s = true ∧ es = false ∧ afterClose now = true) →
      tradeBranches now a_s es s i ep dl = ⟨[], none⟩) ∧
    (∀ t : Trade,
      (applyUpdate t (TradeUpdate.setAlertSent i now.epochSec)).alert_sent = true ∧
      (applyUpdate t (TradeUpdate.setAlertSent i now.epochSec)).entry_alert_sent =
        t.entry_alert_sent) := by
  have h0 : ¬(a_s = false ∧ ep = 0) := by rintro ⟨-, h⟩; exact hep h
  refine ⟨?_, ?_, ?_, ?_, ?_, fun t => ⟨rfl, rfl⟩⟩
  · unfold tradeBranches
    split_ifs <;> simp
  · intro h1 h2 h3
    simp [tradeBranches, h0, h1, h2, h3, hep]
  · intro hn1 h2 h3
    simp [tradeBranches, h0, hn1, h2, h3]
  · intro hn1 hn2 ha hes hc
    have h4 : ¬ dl ≤ ep := fun hdl => hn2 ⟨hes, hdl⟩
    simp [tradeBranches, h0, hn1, ha, hes, hc, h4]
  · intro hn1 hn2 hn3
    simp [tradeBranches, h0, hn1, hn2, hn3]

/-- Witness for C3: entry price 100, day low 99 — both the approaching and
the entry-hit guards hold, and only the approaching branch fires. -/
theorem c3_priority_chain_witness :
    tradeBranches ⟨2, 36000, 777⟩ false false "TCS" "t1" 100 99 =
      ⟨[Notification.approaching "TCS" 100 99],
        some (TradeUpdate.setAlertSent "t1" 777)⟩ :=
  (c3_priority_chain ⟨2, 36000, 777⟩ false false "TCS" "t1" 100 99
      (by norm_num)).2.1 rfl (by norm_num [pyAbs]) (by norm_num [pyAbs])

/-- C1 (code bug evidence): at 15:31 IST on a Wednesday the market-hours
gate already blocks — `check_trades` exits with the store never queried and
no update made, so `alert_sent` is not reset — even though the reset
branch's own guard (alert sent, entry not sent, at-or-after 15:30) would
fire if the record were processed. -/
theorem c1_reset_unreachable_at_1531 :
    marketGateBlocks ⟨2, 55860, 2000000⟩ = true ∧
    check_trades ⟨2, 55860, 2000000⟩
      [⟨some "AAA", some "tr1", some (EntryVal.num 100), "OPEN", true, false, none⟩]
      (FetchResult.ok fun s => if s = "AAA.NS" then some 150 else none) =
      ⟨[], [], false, false, 0, none⟩ ∧
    afterClose ⟨2, 55860, 2000000⟩ = true ∧
    tradeBranches ⟨2, 55860, 2000000⟩ true false "AAA" "tr1" 100 150 =
      ⟨[], some (TradeUpdate.resetAlert "tr1" 2000000)⟩ := by
  have hg : marketGateBlocks ⟨2, 55860, 2000000⟩ = true := by decide
  refine ⟨hg, by simp [check_trades, hg], by decide, ?_⟩
  norm_num [tradeBranches, afterClose, DT.hour, DT.minute]

/-- Any update the chain emits carries the record's id and the current
epoch time. -/
theorem tradeBranches_update_cases (now : DT) (a_s es : Bool) (s i : String)
    (ep dl : ℚ) (u : TradeUpdate)
    (h : (tradeBranches now a_s es s i ep dl).update = some u) :
    u = TradeUpdate.setAlertSent i now.epochSec ∨
    u = TradeUpdate.setEntryAlertSent i now.epochSec ∨
    u = TradeUpdate.resetAlert i now.epochSec := by
  unfold tradeBranches at h
  split_ifs at h <;> simp_all

/-- A pass that performs an update went through every skip check and the
update is one of the three `$set` patches stamped with the current time. -/
theorem processTrade_update_some (now : DT) (prices : String → Option ℚ)
    (t : Trade) (u : TradeUpdate)
    (h : (processTrade now prices t).update = some u) :
    u = TradeUpdate.setAlertSent (t.id.getD "") now.epochSec ∨
    u = TradeUpdate.setEntryAlertSent (t.id.getD "") now.epochSec ∨
    u = TradeUpdate.resetAlert (t.id.getD "") now.epochSec := by
  obtain ⟨sym, id0, ep, st, a_s, es, lat⟩ := t
  rcases sym with _ | s
  · simp [processTrade] at h
  · rcases id0 with _ | i
    · rcases ep with _ | q | - <;> simp [processTrade] at h
    · rcases ep with _ | q | -
      · simp [processTrade] at h
      · by_cases h0 : s = "" ∨ i = ""
        · simp [processTrade, h0] at h
        · cases hp : prices (patch_symbol s) with
          | none => simp [processTrade, h0, hp] at h
          | some dl =>
            cases hcb : cooldownBlocks now ⟨some s, some i,
                some (EntryVal.num q), st, a_s, es, lat⟩ with
            | true => simp [processTrade, h0, hp, hcb] at h
            | false =>
              simp only [processTrade, hp] at h
              rw [if_neg h0] at h
              rw [if_neg (by simp [hcb])] at h
              exact tradeBranches_update_cases now a_s es s i q dl u h
      · simp [processTrade] at h

/-- `applyUpdate` changes only the flags and `last_alert_time`; the
timestamp written is the patch's `uTime`. -/
theorem applyUpdate_fields (t : Trade) (u : TradeUpdate) :
    (applyUpdate t u).symbol = t.symbol ∧ (applyUpdate t u).id = t.id ∧
    (applyUpdate t u).entry_price = t.entry_price ∧
    (applyUpdate t u).last_alert_time = some (Timestamp.aware (uTime u)) := by
  cases u <;> exact ⟨rfl, rfl, rfl, rfl⟩

/-- C5 (amended): any record for which the first pass performed an update —
in particular any record that received an approaching or entry-hit alert —
has `last_alert_time` stamped with the first pass's time, so a second pass
less than 30 minutes later over the updated record sends nothing and
updates nothing. -/
theorem c5_second_run_suppressed (t : Trade) (now1 now2 : DT)
    (prices : String → Option ℚ) (u : TradeUpdate)
    (h1 : (processTrade now1 prices t).update = some u)
    (h2 : now2.epochSec - now1.epochSec < 30 * 60) :
    processTrade now2 prices (applyUpdate t u) = ⟨[], none⟩ := by
  have hu := processTrade_update_some now1 prices t u h1
  have hts : uTime u = now1.epochSec := by
    rcases hu with h | h | h <;> subst h <;> rfl
  obtain ⟨-, -, -, hlat⟩ := applyUpdate_fields t u
  apply processTrade_of_cooldown
  simp only [cooldownBlocks, hlat, hts, localize, Timestamp.epochVal,
    decide_eq_true_eq]
  omega

/-- Witness for C5 (amended): the record alerted at epoch second 50000 is
silent when re-checked 5 minutes later. -/
theorem c5_second_run_suppressed_witness :
    processTrade ⟨2, 36300, 50300⟩
      (fun s => if s = "TCS.NS" then some 99 else none)
      (applyUpdate
        ⟨some "TCS", some "t1", some (EntryVal.num 100), "OPEN", false, false, none⟩
        (TradeUpdate.setAlertSent "t1" 50000)) = ⟨[], none⟩ :=
  c5_second_run_suppressed
    ⟨some "TCS", some "t1", some (EntryVal.num 100), "OPEN", false, false, none⟩
    ⟨2, 36000, 50000⟩ ⟨2, 36300, 50300⟩
    (fun s => if s = "TCS.NS" then some 99 else none)
    (TradeUpdate.setAlertSent "t1" 50000)
    (by
      have hps : patch_symbol "TCS" = "TCS.NS" := rfl
      norm_num [processTrade, hps, cooldownBlocks, tradeBranches, pyAbs]
      all_goals decide)
    (by decide)

/-- C5 counterexample: a record with `entry_price = 0` and `alert_sent`
false produces the same error notification in two immediately successive
passes over unchanged data (the first pass performs no update, so the store
is unchanged), a duplicated notification. -/
theorem c5_duplicate_error_notification :
    processTrade ⟨2, 36000, 1000000⟩
      (fun s => if s = "ZERO.NS" then some 1 else none)
      ⟨some "ZERO", some "t9", some (EntryVal.num 0), "OPEN", false, false, none⟩ =
      ⟨[Notification.tradeError "ZERO"], none⟩ ∧
    processTrade ⟨2, 36060, 1000060⟩
      (fun s => if s = "ZERO.NS" then some 1 else none)
      ⟨some "ZERO", some "t9", some (EntryVal.num 0), "OPEN", false, false, none⟩ =
      ⟨[Notification.tradeError "ZERO"], none⟩ := by
  have hps : patch_symbol "ZERO" = "ZERO.NS" := rfl
  constructor <;> norm_num [processTrade, hps, cooldownBlocks, tradeBranches] <;>
    decide

/-- C10 counterexample: a record with `entry_price = 0`, a known day low of
1, passing every skip check, but with `alert_sent` already true: the
short-circuited approaching guard never divides, nothing is raised, and the
record produces no notification and no update — not the claimed error
notification. The validity check does accept the zero entry price. -/
theorem c10_no_error_when_alert_sent :
    processTrade ⟨2, 36000, 3000⟩ (fun s => if s = "ZED.NS" then some 1 else none)
      ⟨some "ZED", some "t7", some (EntryVal.num 0), "OPEN", true, false, none⟩ =
      ⟨[], none⟩ ∧
    isNumericVal (some (EntryVal.num 0)) = true := by
  have hps : patch_symbol "ZED" = "ZED.NS" := rfl
  refine ⟨?_, rfl⟩
  norm_num [processTrade, hps, cooldownBlocks, tradeBranches, pyAbs,
    afterClose, DT.hour, DT.minute]

/-- C10 (amended): a record with `entry_price = 0` passes the validity
check (0 is numeric); if it passes all skip checks and `alert_sent` is
false, the approaching guard's division by the zero entry price raises,
the per-record handler catches it and sends an error notification naming
the symbol, and no field is updated. -/
theorem c10_zero_entry_error (now : DT) (prices : String → Option ℚ)
    (t : Trade) (s i : String) (dl : ℚ)
    (hs : t.symbol = some s) (hs0 : s ≠ "") (hi : t.id = some i) (hi0 : i ≠ "")
    (he : t.entry_price = some (EntryVal.num 0))
    (hp : prices (patch_symbol s) = some dl)
    (hc : cooldownBlocks now t = false)
    (ha : t.alert_sent = false) :
    isNumericVal t.entry_price = true ∧
    processTrade now prices t = ⟨[Notification.tradeError s], none⟩ := by
  refine ⟨by simp [he, isNumericVal], ?_⟩
  rw [processTrade_passes now prices t s i 0 dl hs hi he hs0 hi0 hp hc, ha]
  simp [tradeBranches]

/-- Witness for C10 (amended): same record as the counterexample but with
`alert_sent` false — the error notification is sent. -/
theorem c10_zero_entry_error_witness :
    processTrade ⟨2, 36000, 3000⟩ (fun s => if s = "ZED.NS" then some 1 else none)
      ⟨some "ZED", some "t7", some (EntryVal.num 0), "OPEN", false, false, none⟩ =
      ⟨[Notification.tradeError "ZED"], none⟩ :=
  (c10_zero_entry_error ⟨2, 36000, 3000⟩
    (fun s => if s = "ZED.NS" then some 1 else none)
    ⟨some "ZED", some "t7", some (EntryVal.num 0), "OPEN", false, false, none⟩
    "ZED" "t7" 1 rfl (by decide) rfl (by decide) rfl
    (by
      have hps : patch_symbol "ZED" = "ZED.NS" := rfl
      simp [hps])
    (by decide) rfl).2
